import Mathlib

/-!
Shallow embedding of the Atlas OS gateway layer (backend routes and
middleware), together with theorems about its fee-injecting swap proxy,
chain alias resolver, credential revocation, usage recording and error
middleware.
-/

namespace AtlasOS

/-! ## Query-parameter model (JS `URLSearchParams`)

An ordered association list of key/value pairs.  `setParam`, `getParam`,
`hasParam` model `URLSearchParams.set` / `.get` / `.has`: `set` replaces the
value of the first occurrence of the key in place (dropping any later
occurrences) and appends at the end when the key is absent; `get` returns the
value of the first occurrence (`none` models JS `null`). -/

abbrev Params := List (String × String)

def setParam : Params → String → String → Params
  | [], k, v => [(k, v)]
  | kv :: rest, k, v =>
      if kv.1 == k then (k, v) :: rest.filter (fun p => p.1 != k)
      else kv :: setParam rest k v

def getParam (ps : Params) (k : String) : Option String :=
  (ps.find? (fun kv => kv.1 == k)).map (fun kv => kv.2)

def hasParam (ps : Params) (k : String) : Bool :=
  ps.any (fun kv => kv.1 == k)

/-- JS truthiness of a `string | undefined | null` value: `undefined`/`null`
(modelled as `none`) and the empty string are falsy. -/
def jsTruthy : Option String → Bool
  | none => false
  | some s => s != ""

/-- JS `String.prototype.toLowerCase()`, modelled as a per-character map over
the string contents (all chain aliases are ASCII). -/
def jsToLower (s : String) : String :=
  String.mk (s.data.map Char.toLower)

/-! ## Fee-injecting swap proxy (`routes/atlas-os/0x/_proxy.ts`) -/

/-- The process-wide fee configuration read from the environment:
`ZERO_EX_FEE_RECIPIENT`, `ZERO_EX_FEE_BPS`, `ZERO_EX_SURPLUS_RECIPIENT`
(each possibly unset). -/
structure FeeEnv where
  feeRecipient : Option String
  feeBps : Option String
  surplusRecipient : Option String
deriving DecidableEq, Repr

def ZERO_EX_BASE : String := "https://api.0x.org"

/-- A `URL` value: base origin, path, and its search parameters. -/
structure Url where
  base : String
  path : String
  searchParams : Params
deriving DecidableEq, Repr

/-- The `for (const [key, val] of Object.entries(callerParams))` loop of
`buildUpstreamUrl`: forward all caller params into the fresh URL via
`searchParams.set`. -/
def forwardParams (callerParams : Params) : Params :=
  callerParams.foldl (fun ps kv => setParam ps kv.1 kv.2) []

/-- `buildUpstreamUrl(path, callerParams)` from
`routes/atlas-os/0x/_proxy.ts`: forwards all caller params, then injects the
platform fee params when `ZERO_EX_FEE_RECIPIENT` is set (appending to any
caller-supplied `swapFeeRecipient`/`swapFeeBps` as comma-separated lists),
then injects `tradeSurplusRecipient` when configured and not already set. -/
def buildUpstreamUrl (path : String) (callerParams : Params) (env : FeeEnv) : Url :=
  let ps0 := forwardParams callerParams
  let feeBps := env.feeBps.getD "25"
  let ps1 :=
    if jsTruthy env.feeRecipient then
      let feeRecipient := env.feeRecipient.getD ""
      let existing := getParam ps0 "swapFeeRecipient"
      let existingBps := getParam ps0 "swapFeeBps"
      if jsTruthy existing then
        setParam (setParam ps0 "swapFeeRecipient" (existing.getD "" ++ "," ++ feeRecipient))
          "swapFeeBps" (existingBps.getD feeBps ++ "," ++ feeBps)
      else
        setParam (setParam ps0 "swapFeeRecipient" feeRecipient) "swapFeeBps" feeBps
    else ps0
  let ps2 :=
    if jsTruthy env.surplusRecipient && !(hasParam ps1 "tradeSurplusRecipient") then
      setParam ps1 "tradeSurplusRecipient" (env.surplusRecipient.getD "")
    else ps1
  { base := ZERO_EX_BASE, path := path, searchParams := ps2 }

/-- Serialisation of the search parameters (`k=v` pairs joined by `&`;
percent-encoding, a per-character injective map, is omitted). -/
def renderParams : Params → String
  | [] => ""
  | [kv] => kv.1 ++ "=" ++ kv.2
  | kv :: rest => kv.1 ++ "=" ++ kv.2 ++ "&" ++ renderParams rest

/-- `url.toString()`: the rendered URL string. -/
def Url.render (u : Url) : String :=
  u.base ++ u.path ++
    (if u.searchParams.isEmpty then "" else "?" ++ renderParams u.searchParams)

/-- Number of entries of a comma-separated list value
(`s.split(",").length`): one more than the number of commas. -/
def commaEntries (s : String) : Nat :=
  s.data.count ',' + 1

/-! ## Chain alias resolver (`routes/atlas-os/rpc.ts`, the RPC router) -/

/-- URL template selector: most networks use the `v2` pattern, Starknet uses a
structurally different path. -/
inductive UrlTemplate where
  | v2
  | starknet
deriving DecidableEq, Repr

/-- One entry of the static chain table: Alchemy network slug plus URL
template (`template` defaults to `v2` in the source). -/
structure ChainDef where
  slug : String
  template : UrlTemplate := UrlTemplate.v2
deriving DecidableEq, Repr

/-- Blocks of the static `CHAINS` table mapping caller-facing aliases to
chain definitions (split into parts to keep elaboration linear). -/
def chainsPart0 : List (String × ChainDef) := [
  ("eth", { slug := "eth-mainnet" }),
  ("eth-mainnet", { slug := "eth-mainnet" }),
  ("ethereum", { slug := "eth-mainnet" }),
  ("eth-sepolia", { slug := "eth-sepolia" }),
  ("eth-holesky", { slug := "eth-holesky" }),
  ("eth-hoodi", { slug := "eth-hoodi" }),
  ("arb", { slug := "arb-mainnet" }),
  ("arbitrum", { slug := "arb-mainnet" }),
  ("arb-mainnet", { slug := "arb-mainnet" }),
  ("arb-sepolia", { slug := "arb-sepolia" }),
  ("arbnova", { slug := "arbnova-mainnet" }),
  ("arbnova-mainnet", { slug := "arbnova-mainnet" }),
  ("arbitrum-nova", { slug := "arbnova-mainnet" }),
  ("base", { slug := "base-mainnet" }),
  ("base-mainnet", { slug := "base-mainnet" }),
  ("base-sepolia", { slug := "base-sepolia" }),
  ("op", { slug := "opt-mainnet" }),
  ("optimism", { slug := "opt-mainnet" }),
  ("opt-mainnet", { slug := "opt-mainnet" }),
  ("opt-sepolia", { slug := "opt-sepolia" }),
  ("polygon", { slug := "polygon-mainnet" }),
  ("matic", { slug := "polygon-mainnet" }),
  ("polygon-mainnet", { slug := "polygon-mainnet" }),
  ("polygon-amoy", { slug := "polygon-amoy" }),
  ("polygonzkevm", { slug := "polygonzkevm-mainnet" }),
  ("polygon-zkevm", { slug := "polygonzkevm-mainnet" }),
  ("polygonzkevm-mainnet", { slug := "polygonzkevm-mainnet" }),
  ("polygonzkevm-cardona", { slug := "polygonzkevm-cardona" }),
  ("avax", { slug := "avax-mainnet" }),
  ("avalanche", { slug := "avax-mainnet" }),
  ("avax-mainnet", { slug := "avax-mainnet" }),
  ("avax-fuji", { slug := "avax-fuji" })
]

def chainsPart1 : List (String × ChainDef) := [
  ("bsc", { slug := "bnb-mainnet" }),
  ("bnb", { slug := "bnb-mainnet" }),
  ("bnb-mainnet", { slug := "bnb-mainnet" }),
  ("bnb-testnet", { slug := "bnb-testnet" }),
  ("opbnb", { slug := "opbnb-mainnet" }),
  ("opbnb-mainnet", { slug := "opbnb-mainnet" }),
  ("opbnb-testnet", { slug := "opbnb-testnet" }),
  ("solana", { slug := "solana-mainnet" }),
  ("solana-mainnet", { slug := "solana-mainnet" }),
  ("solana-devnet", { slug := "solana-devnet" }),
  ("starknet", { slug := "starknet-mainnet", template := UrlTemplate.starknet }),
  ("starknet-mainnet", { slug := "starknet-mainnet", template := UrlTemplate.starknet }),
  ("starknet-sepolia", { slug := "starknet-sepolia", template := UrlTemplate.starknet }),
  ("zksync", { slug := "zksync-mainnet" }),
  ("zksync-mainnet", { slug := "zksync-mainnet" }),
  ("zksync-sepolia", { slug := "zksync-sepolia" }),
  ("linea", { slug := "linea-mainnet" }),
  ("linea-mainnet", { slug := "linea-mainnet" }),
  ("linea-sepolia", { slug := "linea-sepolia" }),
  ("blast", { slug := "blast-mainnet" }),
  ("blast-mainnet", { slug := "blast-mainnet" }),
  ("blast-sepolia", { slug := "blast-sepolia" }),
  ("mantle", { slug := "mantle-mainnet" }),
  ("mantle-mainnet", { slug := "mantle-mainnet" }),
  ("mantle-sepolia", { slug := "mantle-sepolia" }),
  ("scroll", { slug := "scroll-mainnet" }),
  ("scroll-mainnet", { slug := "scroll-mainnet" }),
  ("scroll-sepolia", { slug := "scroll-sepolia" }),
  ("bera", { slug := "berachain-mainnet" }),
  ("berachain", { slug := "berachain-mainnet" }),
  ("berachain-mainnet", { slug := "berachain-mainnet" }),
  ("berachain-bepolia", { slug := "berachain-bepolia" })
]

def chainsPart2 : List (String × ChainDef) := [
  ("celo", { slug := "celo-mainnet" }),
  ("celo-mainnet", { slug := "celo-mainnet" }),
  ("celo-sepolia", { slug := "celo-sepolia" }),
  ("unichain", { slug := "unichain-mainnet" }),
  ("unichain-mainnet", { slug := "unichain-mainnet" }),
  ("unichain-sepolia", { slug := "unichain-sepolia" }),
  ("world-chain", { slug := "worldchain-mainnet" }),
  ("worldchain", { slug := "worldchain-mainnet" }),
  ("worldchain-mainnet", { slug := "worldchain-mainnet" }),
  ("worldchain-sepolia", { slug := "worldchain-sepolia" }),
  ("hyperevm", { slug := "hyperliquid-mainnet" }),
  ("hyperliquid", { slug := "hyperliquid-mainnet" }),
  ("hyperliquid-mainnet", { slug := "hyperliquid-mainnet" }),
  ("hyperliquid-testnet", { slug := "hyperliquid-testnet" }),
  ("sonic", { slug := "sonic-mainnet" }),
  ("sonic-mainnet", { slug := "sonic-mainnet" }),
  ("sonic-testnet", { slug := "sonic-testnet" }),
  ("sonic-blaze", { slug := "sonic-blaze" }),
  ("sei", { slug := "sei-mainnet" }),
  ("sei-mainnet", { slug := "sei-mainnet" }),
  ("sei-testnet", { slug := "sei-testnet" }),
  ("monad", { slug := "monad-mainnet" }),
  ("monad-mainnet", { slug := "monad-mainnet" }),
  ("monad-testnet", { slug := "monad-testnet" }),
  ("ink", { slug := "ink-mainnet" }),
  ("ink-mainnet", { slug := "ink-mainnet" }),
  ("ink-sepolia", { slug := "ink-sepolia" }),
  ("lens", { slug := "lens-mainnet" }),
  ("lens-mainnet", { slug := "lens-mainnet" }),
  ("lens-sepolia", { slug := "lens-sepolia" }),
  ("gnosis", { slug := "gnosis-mainnet" }),
  ("gnosis-mainnet", { slug := "gnosis-mainnet" })
]

def chainsPart3 : List (String × ChainDef) := [
  ("gnosis-chiado", { slug := "gnosis-chiado" }),
  ("metis", { slug := "metis-mainnet" }),
  ("metis-mainnet", { slug := "metis-mainnet" }),
  ("moonbeam", { slug := "moonbeam-mainnet" }),
  ("moonbeam-mainnet", { slug := "moonbeam-mainnet" }),
  ("zora", { slug := "zora-mainnet" }),
  ("zora-mainnet", { slug := "zora-mainnet" }),
  ("zora-sepolia", { slug := "zora-sepolia" }),
  ("mode", { slug := "mode-mainnet" }),
  ("mode-mainnet", { slug := "mode-mainnet" }),
  ("mode-sepolia", { slug := "mode-sepolia" }),
  ("astar", { slug := "astar-mainnet" }),
  ("astar-mainnet", { slug := "astar-mainnet" }),
  ("zetachain", { slug := "zetachain-mainnet" }),
  ("zetachain-mainnet", { slug := "zetachain-mainnet" }),
  ("zetachain-testnet", { slug := "zetachain-testnet" }),
  ("soneium", { slug := "soneium-mainnet" }),
  ("soneium-mainnet", { slug := "soneium-mainnet" }),
  ("soneium-minato", { slug := "soneium-minato" }),
  ("abstract", { slug := "abstract-mainnet" }),
  ("abstract-mainnet", { slug := "abstract-mainnet" }),
  ("abstract-testnet", { slug := "abstract-testnet" }),
  ("anime", { slug := "anime-mainnet" }),
  ("anime-mainnet", { slug := "anime-mainnet" }),
  ("anime-sepolia", { slug := "anime-sepolia" }),
  ("apechain", { slug := "apechain-mainnet" }),
  ("apechain-mainnet", { slug := "apechain-mainnet" }),
  ("apechain-curtis", { slug := "apechain-curtis" }),
  ("aptos", { slug := "aptos-mainnet" }),
  ("aptos-mainnet", { slug := "aptos-mainnet" }),
  ("aptos-testnet", { slug := "aptos-testnet" }),
  ("story", { slug := "story-mainnet" })
]

def chainsPart4 : List (String × ChainDef) := [
  ("story-mainnet", { slug := "story-mainnet" }),
  ("story-aeneid", { slug := "story-aeneid" }),
  ("superseed", { slug := "superseed-mainnet" }),
  ("superseed-mainnet", { slug := "superseed-mainnet" }),
  ("superseed-sepolia", { slug := "superseed-sepolia" }),
  ("flow", { slug := "flow-mainnet" }),
  ("flow-mainnet", { slug := "flow-mainnet" }),
  ("flow-testnet", { slug := "flow-testnet" }),
  ("frax", { slug := "frax-mainnet" }),
  ("frax-mainnet", { slug := "frax-mainnet" }),
  ("frax-sepolia", { slug := "frax-sepolia" }),
  ("bob", { slug := "bob-mainnet" }),
  ("bob-mainnet", { slug := "bob-mainnet" }),
  ("bob-sepolia", { slug := "bob-sepolia" }),
  ("crossfi", { slug := "crossfi-mainnet" }),
  ("crossfi-mainnet", { slug := "crossfi-mainnet" }),
  ("crossfi-testnet", { slug := "crossfi-testnet" }),
  ("rootstock", { slug := "rootstock-mainnet" }),
  ("rootstock-mainnet", { slug := "rootstock-mainnet" }),
  ("rootstock-testnet", { slug := "rootstock-testnet" }),
  ("shape", { slug := "shape-mainnet" }),
  ("shape-mainnet", { slug := "shape-mainnet" }),
  ("shape-sepolia", { slug := "shape-sepolia" }),
  ("botanix", { slug := "botanix-mainnet" }),
  ("botanix-mainnet", { slug := "botanix-mainnet" }),
  ("botanix-testnet", { slug := "botanix-testnet" }),
  ("degen", { slug := "degen-mainnet" }),
  ("degen-mainnet", { slug := "degen-mainnet" }),
  ("degen-sepolia", { slug := "degen-sepolia" }),
  ("bitcoin", { slug := "bitcoin-mainnet" }),
  ("btc", { slug := "bitcoin-mainnet" }),
  ("bitcoin-mainnet", { slug := "bitcoin-mainnet" })
]

def chainsPart5 : List (String × ChainDef) := [
  ("bitcoin-testnet", { slug := "bitcoin-testnet" }),
  ("bitcoin-signet", { slug := "bitcoin-signet" }),
  ("sui", { slug := "sui-mainnet" }),
  ("sui-mainnet", { slug := "sui-mainnet" }),
  ("sui-testnet", { slug := "sui-testnet" }),
  ("ronin", { slug := "ronin-mainnet" }),
  ("ronin-mainnet", { slug := "ronin-mainnet" }),
  ("ronin-saigon", { slug := "ronin-saigon" }),
  ("boba", { slug := "boba-mainnet" }),
  ("boba-mainnet", { slug := "boba-mainnet" }),
  ("boba-sepolia", { slug := "boba-sepolia" }),
  ("megaeth", { slug := "megaeth-mainnet" }),
  ("megaeth-mainnet", { slug := "megaeth-mainnet" }),
  ("megaeth-testnet", { slug := "megaeth-testnet" }),
  ("polynomial", { slug := "polynomial-mainnet" }),
  ("polynomial-mainnet", { slug := "polynomial-mainnet" }),
  ("polynomial-sepolia", { slug := "polynomial-sepolia" }),
  ("tron", { slug := "tron-mainnet" }),
  ("tron-mainnet", { slug := "tron-mainnet" }),
  ("tron-testnet", { slug := "tron-testnet" }),
  ("clankermon", { slug := "clankermon-mainnet" }),
  ("clankermon-mainnet", { slug := "clankermon-mainnet" }),
  ("humanity", { slug := "humanity-mainnet" }),
  ("humanity-mainnet", { slug := "humanity-mainnet" }),
  ("humanity-testnet", { slug := "humanity-testnet" }),
  ("galactica", { slug := "galactica-mainnet" }),
  ("galactica-mainnet", { slug := "galactica-mainnet" }),
  ("galactica-cassiopeia", { slug := "galactica-cassiopeia" }),
  ("scroll-race", { slug := "race-mainnet" }),
  ("race", { slug := "race-mainnet" }),
  ("race-mainnet", { slug := "race-mainnet" }),
  ("race-sepolia", { slug := "race-sepolia" })
]

/-- The full static `CHAINS` table (all aliases spelled in lower case),
assembled from the blocks above in source order. -/
def CHAINS : List (String × ChainDef) :=
  chainsPart0 ++ chainsPart1 ++ chainsPart2 ++ chainsPart3 ++ chainsPart4 ++ chainsPart5

/-- JS object property lookup `CHAINS[alias]` (`none` models `undefined`). -/
def chainsLookup (a : String) : Option ChainDef :=
  (CHAINS.find? (fun kv => kv.1 == a)).map (fun kv => kv.2)

/-- Alias resolution as performed by the `POST /atlas-os/rpc/:chain` handler:
`const chain = CHAINS[ctx.req.param("chain").toLowerCase()]`. -/
def resolveChain (a : String) : Option ChainDef :=
  chainsLookup (jsToLower a)

/-- `buildAlchemyUrl(chain)`: assembles the upstream RPC URL from the slug,
branching on the URL template; `key` is the process-wide `ALCHEMY_API_KEY`. -/
def buildAlchemyUrl (key : String) (chain : ChainDef) : String :=
  match chain.template with
  | UrlTemplate.starknet =>
      "https://" ++ chain.slug ++ ".g.alchemy.com/starknet/version/rpc/v0_10/" ++ key
  | UrlTemplate.v2 =>
      "https://" ++ chain.slug ++ ".g.alchemy.com/v2/" ++ key

/-! ## Usage recorder (`routes/atlas-os/compute/usage.ts`) -/

/-- The parsed JSON body of `POST /atlas-os/compute/usage` (`UsageBody` in the
source); `none` models an absent (`undefined`) field. -/
structure UsageBody where
  action : Option String
  workflow : Option String
  duration_ms : Option Int
  status : Option String
  error_msg : Option String
deriving DecidableEq, Repr

/-- A row of the `compute_usage` table as written by the insert statement
(`error_msg ?? null`, `workflow ?? null`, `duration_ms ?? null`). -/
structure UsageRow where
  user_id : String
  api_key_id : String
  action : String
  workflow : Option String
  duration_ms : Option Int
  status : String
  error_msg : Option String
deriving DecidableEq, Repr

/-- Outcome of the `POST /atlas-os/compute/usage` handler: a 400 rejection
(no row inserted) for a missing `action` or for `status = "error"` without
`error_msg`, or a 201 with the inserted row. -/
inductive UsagePostResult where
  | rejectedAction
  | rejectedErrorMsg
  | created (row : UsageRow)
deriving DecidableEq, Repr

/-- Whether the handler outcome is a 400 rejection (no row inserted). -/
def UsagePostResult.isReject : UsagePostResult → Bool
  | rejectedAction => true
  | rejectedErrorMsg => true
  | created _ => false

/-- HTTP status code of the handler outcome. -/
def UsagePostResult.statusCode : UsagePostResult → Nat
  | rejectedAction => 400
  | rejectedErrorMsg => 400
  | created _ => 201

/-- The `POST /atlas-os/compute/usage` handler body after JSON parsing:
destructures the body with `status = "success"` as default, rejects a falsy
`action`, rejects `status === "error"` with a falsy `error_msg`, otherwise
inserts one row. -/
def usagePost (userId apiKeyId : String) (b : UsageBody) : UsagePostResult :=
  if !(jsTruthy b.action) then UsagePostResult.rejectedAction
  else if b.status.getD "success" == "error" && !(jsTruthy b.error_msg) then
    UsagePostResult.rejectedErrorMsg
  else
    UsagePostResult.created
      { user_id := userId
        api_key_id := apiKeyId
        action := b.action.getD ""
        workflow := b.workflow
        duration_ms := b.duration_ms
        status := b.status.getD "success"
        error_msg := b.error_msg }

/-- JS `parseInt(s, 10)`: skip leading whitespace, optional sign, longest
decimal-digit run; `none` models `NaN` (no digits). -/
def jsParseInt (s : String) : Option Int :=
  let cs := s.data.dropWhile Char.isWhitespace
  let signAndRest : Int × List Char :=
    match cs with
    | c :: rest => if c = '-' then (-1, rest) else if c = '+' then (1, rest) else (1, cs)
    | [] => (1, [])
  let ds := signAndRest.2.takeWhile Char.isDigit
  if ds.isEmpty then none
  else some (signAndRest.1 * (ds.foldl (fun n c => 10 * n + ((c.toNat : Int) - 48)) 0))

/-- The `limit` computation of `GET /atlas-os/compute/usage`:
`Math.min(parseInt(ctx.req.query("limit") ?? "50", 10), 200)`
(`none` models `NaN`, which `Math.min` propagates). -/
def computeUsageLimit (q : Option String) : Option Int :=
  (jsParseInt (q.getD "50")).map (fun n => min n 200)

/-- The `limit` computation of the dashboard route `GET /keys/compute-usage`:
`Math.min(parseInt(ctx.req.query("limit") ?? "200", 10), 500)`. -/
def dashUsageLimit (q : Option String) : Option Int :=
  (jsParseInt (q.getD "200")).map (fun n => min n 500)

/-! ## Credential revocation (`DELETE /api/keys/:id`) -/

/-- A row of the `api_keys` table (the `prefix` column is renamed `keyPfx`
here because `prefix` is a Lean keyword). -/
structure ApiKeyRow where
  id : String
  user_id : String
  name : String
  keyPfx : String
  key_hash : String
deriving DecidableEq, Repr

/-- Response of the `DELETE /api/keys/:id` handler: either the 404 body
`{ error: "Key not found or not yours" }` or the 200 body
`{ success: true, id }`.  The handler has no other outcome (in particular no
403/forbidden response exists in the code). -/
inductive DeleteResp where
  | notFound
  | deleted (id : String)
deriving DecidableEq, Repr

/-- HTTP status code of a revocation response. -/
def DeleteResp.statusCode : DeleteResp → Nat
  | notFound => 404
  | deleted _ => 200

/-- The SQL predicate `id = $1 AND user_id = $2` of the delete statement. -/
def rowMatches (id userId : String) (r : ApiKeyRow) : Bool :=
  r.id == id && r.user_id == userId

/-- The `DELETE /api/keys/:id` handler: run
`DELETE FROM api_keys WHERE id = $1 AND user_id = $2 RETURNING id` and answer
404 when no row was returned, 200 otherwise.  Returns the store after the
statement together with the response. -/
def keysDelete (store : List ApiKeyRow) (userId id : String) :
    List ApiKeyRow × DeleteResp :=
  let returned := store.filter (rowMatches id userId)
  let remaining := store.filter (fun r => !(rowMatches id userId r))
  if returned.isEmpty then (remaining, DeleteResp.notFound)
  else (remaining, DeleteResp.deleted id)

/-! ## Error middleware (`middleware/error.ts`) -/

/-- A thrown JS value as the middleware distinguishes it: an `Error` object
carrying a message, or any other value. -/
inductive Thrown where
  | errObj (message : String)
  | nonError
deriving DecidableEq, Repr

/-- The JSON body `{ error: ... }` and status the middleware responds with. -/
structure ErrResponse where
  statusCode : Nat
  errorBody : String
deriving DecidableEq, Repr

/-- `errorHandler` catch branch: respond 500 with
`{ error: err instanceof Error ? err.message : "Internal server error" }`
(the same message is also logged server-side). -/
def errorHandler (e : Thrown) : ErrResponse :=
  let message :=
    match e with
    | Thrown.errObj m => m
    | Thrown.nonError => "Internal server error"
  { statusCode := 500, errorBody := message }

end AtlasOS

namespace AtlasOS

theorem find_filter_ne (rest : Params) (j k : String) (h : j ≠ k) :
    List.find? (fun kv => kv.1 == j) (rest.filter (fun p => p.1 != k)) =
    List.find? (fun kv => kv.1 == j) rest := by
  induction rest with
  | nil => rfl
  | cons p rest ih =>
      by_cases hpk : (p.1 == k) = true
      · have hp1 : p.1 = k := by simpa using hpk
        have hpj : (k == j) = false := by
          simp
          exact fun hc => h hc.symm
        simp [List.filter_cons, hp1, List.find?_cons, hpj, ih]
      · have hp2 : ¬ p.1 = k := by simpa using hpk
        by_cases hpj : (p.1 == j) = true
        · simp [List.filter_cons, hp2, List.find?_cons, hpj]
        · simp [List.filter_cons, hp2, List.find?_cons, hpj, ih]

theorem getParam_setParam (ps : Params) (j k v : String) :
    getParam (setParam ps k v) j = if j = k then some v else getParam ps j := by
  induction ps with
  | nil =>
      by_cases hjk : j = k
      · subst hjk; simp [setParam, getParam, List.find?_cons]
      · have : (k == j) = false := by simpa using fun hc => hjk hc.symm
        simp [setParam, getParam, List.find?_cons, this, hjk]
  | cons kv rest ih =>
      by_cases hk : (kv.1 == k) = true
      · have hkv : kv.1 = k := by simpa using hk
        by_cases hjk : j = k
        · subst hjk; simp [setParam, hk, getParam, List.find?_cons]
        · have hkj : (k == j) = false := by simpa using fun hc => hjk hc.symm
          have hkvj : (kv.1 == j) = false := by simpa [hkv] using fun hc => hjk hc.symm
          have := find_filter_ne rest j k hjk
          simp [setParam, hk, getParam, List.find?_cons, hkj, hkvj, hjk, this]
      · by_cases hj : (kv.1 == j) = true
        · have hjk : j ≠ k := by
            intro hc
            subst hc
            exact absurd hk (by simpa using hj)
          simp [setParam, hk, getParam, List.find?_cons, hj, hjk]
        · simp [setParam, hk, getParam, List.find?_cons, hj] at ih ⊢
          rw [ih]

theorem hasParam_eq_isSome (ps : Params) (k : String) :
    hasParam ps k = (getParam ps k).isSome := by
  induction ps with
  | nil => rfl
  | cons kv rest ih =>
      by_cases hk : (kv.1 == k) = true
      · simp [hasParam, getParam, List.find?_cons, hk]
      · simp [hasParam, getParam, List.find?_cons, hk] at ih ⊢
        exact ih

theorem hasParam_setParam (ps : Params) (j k v : String) :
    hasParam (setParam ps k v) j = (decide (j = k) || hasParam ps j) := by
  rw [hasParam_eq_isSome, getParam_setParam, hasParam_eq_isSome]
  by_cases hjk : j = k <;> simp [hjk]

end AtlasOS

namespace AtlasOS

theorem hasParam_foldl_setParam (cp : Params) (init : Params) (k : String)
    (h : (∃ v, (k, v) ∈ cp) ∨ hasParam init k = true) :
    hasParam (cp.foldl (fun ps kv => setParam ps kv.1 kv.2) init) k = true := by
  induction cp generalizing init with
  | nil =>
      rcases h with ⟨v, hv⟩ | hinit
      · simp at hv
      · simpa using hinit
  | cons kv rest ih =>
      simp only [List.foldl_cons]
      apply ih
      rcases h with ⟨v, hv⟩ | hinit
      · rcases List.mem_cons.mp hv with heq | hmem
        · right
          rw [hasParam_setParam]
          have hk1 : kv.1 = k := by rw [← heq]
          simp [hk1]
        · exact Or.inl ⟨v, hmem⟩
      · right
        rw [hasParam_setParam]
        simp [hinit]

theorem hasParam_forwardParams (cp : Params) (k v : String) (h : (k, v) ∈ cp) :
    hasParam (forwardParams cp) k = true :=
  hasParam_foldl_setParam cp [] k (Or.inl ⟨v, h⟩)

theorem hasParam_buildUpstreamUrl (path : String) (cp : Params) (env : FeeEnv) (k : String)
    (h : hasParam (forwardParams cp) k = true) :
    hasParam (buildUpstreamUrl path cp env).searchParams k = true := by
  unfold buildUpstreamUrl
  simp only []
  split <;> (try split) <;> (try split) <;> simp [hasParam_setParam, h]

end AtlasOS

namespace AtlasOS

theorem fee_append_core (path : String) (cp : Params) (env : FeeEnv) (r c : String)
    (hr : env.feeRecipient = some r) (hrne : r ≠ "")
    (hc : getParam (forwardParams cp) "swapFeeRecipient" = some c) (hcne : c ≠ "") :
    getParam (buildUpstreamUrl path cp env).searchParams "swapFeeRecipient" =
      some (c ++ "," ++ r) ∧
    getParam (buildUpstreamUrl path cp env).searchParams "swapFeeBps" =
      some ((getParam (forwardParams cp) "swapFeeBps").getD (env.feeBps.getD "25")
        ++ "," ++ env.feeBps.getD "25") := by
  have htr : jsTruthy env.feeRecipient = true := by
    rw [hr]; simpa [jsTruthy] using hrne
  have hc2 : jsTruthy (some c) = true := by simpa [jsTruthy] using hcne
  have hgr : env.feeRecipient.getD "" = r := by rw [hr]; rfl
  unfold buildUpstreamUrl
  simp only [htr, hc, hc2, hgr, eq_self_iff_true, if_true, Option.getD_some]
  refine ⟨?_, ?_⟩ <;> split <;> simp [getParam_setParam]

theorem commaEntries_append (x y : String) :
    commaEntries (x ++ "," ++ y) = commaEntries x + commaEntries y := by
  have h1 : (x ++ "," ++ y).data = x.data ++ [','] ++ y.data := by
    simp [String.data_append]
  simp [commaEntries, h1, List.count_append]
  omega

end AtlasOS

namespace AtlasOS

/-- Claim C1, counterexample: with the platform fee recipient unconfigured
(`ZERO_EX_FEE_RECIPIENT` unset), the upstream URL built for a swap price
request carries no platform fee parameters at all, so the fee is not
"always present regardless of configuration". -/
theorem fee_params_absent_when_unconfigured :
    hasParam (buildUpstreamUrl "/swap/allowance-holder/price" [("chainId", "1")]
      { feeRecipient := none, feeBps := none, surplusRecipient := none }).searchParams
      "swapFeeRecipient" = false ∧
    hasParam (buildUpstreamUrl "/swap/allowance-holder/price" [("chainId", "1")]
      { feeRecipient := none, feeBps := none, surplusRecipient := none }).searchParams
      "swapFeeBps" = false := by
  decide

/-- Claim C1, amended: whenever the platform fee recipient is configured
(set and non-empty), every upstream URL produced by `buildUpstreamUrl`
contains both `swapFeeRecipient` and `swapFeeBps`; with it unconfigured the
request passes through with no fee injection. -/
theorem fee_params_present_when_recipient_configured (path : String) (cp : Params)
    (env : FeeEnv) (h : jsTruthy env.feeRecipient = true) :
    hasParam (buildUpstreamUrl path cp env).searchParams "swapFeeRecipient" = true ∧
    hasParam (buildUpstreamUrl path cp env).searchParams "swapFeeBps" = true := by
  unfold buildUpstreamUrl
  simp only [h, eq_self_iff_true, if_true]
  constructor <;> (split <;> (try split) <;> simp [hasParam_setParam])

/-- Witness for the amended claim C1 at a concrete request. -/
theorem fee_params_present_when_recipient_configured_witness :
    hasParam (buildUpstreamUrl "/swap/allowance-holder/price" [("chainId", "8453")]
      { feeRecipient := some "0xP", feeBps := none, surplusRecipient := none }).searchParams
      "swapFeeRecipient" = true ∧
    hasParam (buildUpstreamUrl "/swap/allowance-holder/price" [("chainId", "8453")]
      { feeRecipient := some "0xP", feeBps := none, surplusRecipient := none }).searchParams
      "swapFeeBps" = true :=
  fee_params_present_when_recipient_configured _ _ _ (by decide)

/-- Claim C2: when the caller already supplied `swapFeeRecipient` (non-empty)
and `swapFeeBps`, the platform entry is appended after the caller entry in
both comma-separated lists, and appending one entry to each side preserves
index alignment of the two lists. -/
theorem caller_fee_appended_comma_separated (path : String) (cp : Params)
    (env : FeeEnv) (r p c b : String)
    (hr : env.feeRecipient = some r) (hrne : r ≠ "")
    (hp : env.feeBps.getD "25" = p)
    (hc : getParam (forwardParams cp) "swapFeeRecipient" = some c) (hcne : c ≠ "")
    (hb : getParam (forwardParams cp) "swapFeeBps" = some b) :
    getParam (buildUpstreamUrl path cp env).searchParams "swapFeeRecipient" =
      some (c ++ "," ++ r) ∧
    getParam (buildUpstreamUrl path cp env).searchParams "swapFeeBps" =
      some (b ++ "," ++ p) ∧
    (commaEntries c = commaEntries b → commaEntries r = commaEntries p →
      commaEntries (c ++ "," ++ r) = commaEntries (b ++ "," ++ p)) := by
  obtain ⟨h1, h2⟩ := fee_append_core path cp env r c hr hrne hc hcne
  simp only [hb, hp, Option.getD_some] at h2
  refine ⟨h1, h2, ?_⟩
  intro hcb hrp
  rw [commaEntries_append, commaEntries_append, hcb, hrp]

/-- Witness for claim C2: the end-to-end scenario of the spec
(`swapFeeRecipient=0xC&swapFeeBps=10` with platform config `0xP`/`25`). -/
theorem caller_fee_appended_comma_separated_witness :
    getParam (buildUpstreamUrl "/swap/allowance-holder/quote"
      [("swapFeeRecipient", "0xC"), ("swapFeeBps", "10")]
      { feeRecipient := some "0xP", feeBps := some "25", surplusRecipient := none }).searchParams
      "swapFeeRecipient" = some "0xC,0xP" ∧
    getParam (buildUpstreamUrl "/swap/allowance-holder/quote"
      [("swapFeeRecipient", "0xC"), ("swapFeeBps", "10")]
      { feeRecipient := some "0xP", feeBps := some "25", surplusRecipient := none }).searchParams
      "swapFeeBps" = some "10,25" := by
  have h := caller_fee_appended_comma_separated "/swap/allowance-holder/quote"
    [("swapFeeRecipient", "0xC"), ("swapFeeBps", "10")]
    { feeRecipient := some "0xP", feeBps := some "25", surplusRecipient := none }
    "0xP" "25" "0xC" "10" rfl (by decide) rfl (by decide) (by decide) (by decide)
  exact ⟨h.1, h.2.1⟩

/-- Claim C3: no caller-supplied query key is ever dropped: every key present
in the caller input appears in the URL built by `buildUpstreamUrl`. -/
theorem caller_params_never_dropped (path : String) (cp : Params) (env : FeeEnv)
    (k v : String) (h : (k, v) ∈ cp) :
    hasParam (buildUpstreamUrl path cp env).searchParams k = true :=
  hasParam_buildUpstreamUrl path cp env k (hasParam_forwardParams cp k v h)

/-- Witness for claim C3 at a concrete caller parameter set. -/
theorem caller_params_never_dropped_witness :
    hasParam (buildUpstreamUrl "/swap/allowance-holder/price"
      [("chainId", "1"), ("sellToken", "0xA"), ("buyToken", "0xB")]
      { feeRecipient := some "0xP", feeBps := some "25",
        surplusRecipient := some "0xS" }).searchParams "sellToken" = true :=
  caller_params_never_dropped _ _ _ "sellToken" "0xA" (by decide)

/-- Claim C4: `buildUpstreamUrl` is a pure function of the caller parameters,
the path and the process-wide fee configuration, so two invocations on
identical inputs yield the same `URL` value and byte-identical rendered
strings. -/
theorem buildUpstreamUrl_deterministic (path : String) (cp : Params) (env : FeeEnv) :
    buildUpstreamUrl path cp env = buildUpstreamUrl path cp env ∧
    Url.render (buildUpstreamUrl path cp env) = Url.render (buildUpstreamUrl path cp env) :=
  ⟨rfl, rfl⟩

/-- Claim C10: a caller that supplies `swapFeeRecipient` but omits
`swapFeeBps` gets the platform bps in the caller slot: the outbound
`swapFeeBps` is `<platform>,<platform>` next to `swapFeeRecipient =
<caller>,<platform>`, and (for single-entry values) both lists have exactly
two entries. -/
theorem platform_bps_fills_missing_caller_bps (path : String) (cp : Params)
    (env : FeeEnv) (r p c : String)
    (hr : env.feeRecipient = some r) (hrne : r ≠ "")
    (hp : env.feeBps.getD "25" = p)
    (hc : getParam (forwardParams cp) "swapFeeRecipient" = some c) (hcne : c ≠ "")
    (hb : getParam (forwardParams cp) "swapFeeBps" = none) :
    getParam (buildUpstreamUrl path cp env).searchParams "swapFeeRecipient" =
      some (c ++ "," ++ r) ∧
    getParam (buildUpstreamUrl path cp env).searchParams "swapFeeBps" =
      some (p ++ "," ++ p) ∧
    (commaEntries c = 1 → commaEntries r = 1 → commaEntries p = 1 →
      commaEntries (c ++ "," ++ r) = 2 ∧ commaEntries (p ++ "," ++ p) = 2) := by
  obtain ⟨h1, h2⟩ := fee_append_core path cp env r c hr hrne hc hcne
  simp only [hb, hp, Option.getD_none] at h2
  refine ⟨h1, h2, ?_⟩
  intro hc1 hr1 hp1
  constructor <;> rw [commaEntries_append] <;> omega

/-- Witness for claim C10: caller supplies only `swapFeeRecipient=0xC`,
platform config is `0xP` with default bps `25`. -/
theorem platform_bps_fills_missing_caller_bps_witness :
    getParam (buildUpstreamUrl "/swap/allowance-holder/price"
      [("swapFeeRecipient", "0xC")]
      { feeRecipient := some "0xP", feeBps := none, surplusRecipient := none }).searchParams
      "swapFeeRecipient" = some "0xC,0xP" ∧
    getParam (buildUpstreamUrl "/swap/allowance-holder/price"
      [("swapFeeRecipient", "0xC")]
      { feeRecipient := some "0xP", feeBps := none, surplusRecipient := none }).searchParams
      "swapFeeBps" = some "25,25" ∧
    commaEntries "0xC,0xP" = 2 ∧ commaEntries "25,25" = 2 := by
  have h := platform_bps_fills_missing_caller_bps "/swap/allowance-holder/price"
    [("swapFeeRecipient", "0xC")]
    { feeRecipient := some "0xP", feeBps := none, surplusRecipient := none }
    "0xP" "25" "0xC" rfl (by decide) rfl (by decide) (by decide) (by decide)
  have h3 := h.2.2 (by decide) (by decide) (by decide)
  exact ⟨h.1, h.2.1, by simpa using h3.1, by simpa using h3.2⟩

end AtlasOS

namespace AtlasOS

/-- Claim C5: revoking a credential that does not exist or is owned by a
different principal leaves the store unchanged and answers 404 not-found
(the handler has no forbidden response and does not report success). -/
theorem keysDelete_foreign_reports_not_found (store : List ApiKeyRow)
    (userId id : String)
    (h : ∀ r ∈ store, rowMatches id userId r = false) :
    keysDelete store userId id = (store, DeleteResp.notFound) ∧
    DeleteResp.statusCode (keysDelete store userId id).2 = 404 ∧
    ∀ rid, (keysDelete store userId id).2 ≠ DeleteResp.deleted rid := by
  have hfil : store.filter (rowMatches id userId) = [] := by
    rw [List.filter_eq_nil_iff]
    intro a ha
    simp [h a ha]
  have hrem : store.filter (fun r => !(rowMatches id userId r)) = store := by
    rw [List.filter_eq_self]
    intro a ha
    simp [h a ha]
  have hmain : keysDelete store userId id = (store, DeleteResp.notFound) := by
    unfold keysDelete
    simp [hfil, hrem]
  refine ⟨hmain, ?_, ?_⟩
  · rw [hmain]
    rfl
  · intro rid
    rw [hmain]
    simp

/-- Witness for claim C5: principal bob attempts to revoke a credential owned
by alice; the store keeps the row and the response is 404. -/
theorem keysDelete_foreign_reports_not_found_witness :
    keysDelete [(⟨"k1", "alice", "laptop", "atl_aaaabbbbcccc", "h1"⟩ : ApiKeyRow)]
      "bob" "k1" =
      ([(⟨"k1", "alice", "laptop", "atl_aaaabbbbcccc", "h1"⟩ : ApiKeyRow)],
        DeleteResp.notFound) :=
  (keysDelete_foreign_reports_not_found _ "bob" "k1" (by decide)).1

/-- Claim C6: a usage event with `status = "error"` and a missing (or empty)
`error_msg` is rejected with a 400 and no row is inserted; every row the
handler does insert satisfies status = error implies an error message is
present. -/
theorem usagePost_error_requires_message (userId apiKeyId : String) (b : UsageBody) :
    (b.status = some "error" → jsTruthy b.error_msg = false →
      (usagePost userId apiKeyId b).isReject = true ∧
      (usagePost userId apiKeyId b).statusCode = 400) ∧
    (∀ row, usagePost userId apiKeyId b = UsagePostResult.created row →
      row.status = "error" → jsTruthy row.error_msg = true) := by
  constructor
  · intro hs hm
    unfold usagePost
    rw [hs]
    cases hact : jsTruthy b.action <;>
      simp [UsagePostResult.isReject, UsagePostResult.statusCode, hm]
  · intro row hrow hst
    unfold usagePost at hrow
    split at hrow
    · simp at hrow
    · split at hrow
      · simp at hrow
      · rename_i hcond
        cases hrow
        simp only at hst
        rw [hst] at hcond
        simpa using hcond

/-- Witness for claim C6: a body with `status = "error"` and no `error_msg`
is a 400 rejection. -/
theorem usagePost_error_requires_message_witness :
    (usagePost "user-1" "key-1"
      { action := some "perp.trade", workflow := none, duration_ms := none,
        status := some "error", error_msg := none }).isReject = true ∧
    (usagePost "user-1" "key-1"
      { action := some "perp.trade", workflow := none, duration_ms := none,
        status := some "error", error_msg := none }).statusCode = 400 :=
  (usagePost_error_requires_message "user-1" "key-1" _).1 rfl rfl

/-- Claim C7, counterexample: on the dashboard usage-history route
`GET /keys/compute-usage` a requested `limit=500` is served as 500 (its cap
is 500), not clamped to 200 as the claim states for every usage-history
query. -/
theorem dashUsageLimit_not_clamped_to_200 :
    dashUsageLimit (some "500") = some 500 ∧
    dashUsageLimit (some "500") ≠ some 200 := by
  decide

/-- Claim C7, amended: on `GET /atlas-os/compute/usage` any requested numeric
limit above 200 is clamped to 200 (and served, not rejected); the dashboard
route `GET /keys/compute-usage` instead clamps at its own maximum of 500. -/
theorem usage_limit_clamping (s : String) (n : Int)
    (hp : jsParseInt s = some n) (h2 : 200 < n) :
    computeUsageLimit (some s) = some 200 ∧
    (500 ≤ n → dashUsageLimit (some s) = some 500) := by
  constructor
  · simp [computeUsageLimit, hp]
    omega
  · intro h5
    simp [dashUsageLimit, hp]
    omega

/-- Witness for the amended claim C7 at `limit=500`. -/
theorem usage_limit_clamping_witness :
    computeUsageLimit (some "500") = some 200 ∧
    (500 ≤ (500 : Int) → dashUsageLimit (some "500") = some 500) :=
  usage_limit_clamping "500" 500 (by decide) (by decide)

/-- Claim C8: chain alias resolution is case-insensitive: any two spellings
that agree after lower-casing resolve to the same chain definition (hence the
same slug and the same upstream URL for any provider key). -/
theorem resolveChain_case_insensitive (s1 s2 : String)
    (h : jsToLower s1 = jsToLower s2) :
    resolveChain s1 = resolveChain s2 ∧
    ∀ key, Option.map (buildAlchemyUrl key) (resolveChain s1) =
      Option.map (buildAlchemyUrl key) (resolveChain s2) := by
  unfold resolveChain
  rw [h]
  exact ⟨rfl, fun _ => rfl⟩

/-- Witness for claim C8: `"ETH"`, `"Eth"` and `"eth"` all resolve alike, and
the common result is the eth-mainnet definition. -/
theorem resolveChain_case_insensitive_witness :
    resolveChain "ETH" = resolveChain "eth" ∧
    resolveChain "Eth" = resolveChain "eth" ∧
    resolveChain "eth" = some { slug := "eth-mainnet" } :=
  ⟨(resolveChain_case_insensitive "ETH" "eth" (by decide)).1,
   (resolveChain_case_insensitive "Eth" "eth" (by decide)).1,
   by decide⟩

/-- Claim C9, counterexample: for an internal error thrown as an `Error`
object the middleware sends the exception message itself to the caller, not
only a generic message. -/
theorem errorHandler_exposes_internal_message :
    (errorHandler (Thrown.errObj "connect ECONNREFUSED 127.0.0.1:5432")).errorBody =
      "connect ECONNREFUSED 127.0.0.1:5432" ∧
    (errorHandler (Thrown.errObj "connect ECONNREFUSED 127.0.0.1:5432")).errorBody ≠
      "Internal server error" := by
  decide

/-- Claim C9, amended: the error middleware answers 500 with a body carrying
the thrown `Error` object message verbatim; the generic
"Internal server error" text is used only when the thrown value is not an
`Error` instance. -/
theorem errorHandler_returns_thrown_message (m : String) :
    errorHandler (Thrown.errObj m) = { statusCode := 500, errorBody := m } ∧
    errorHandler Thrown.nonError =
      { statusCode := 500, errorBody := "Internal server error" } :=
  ⟨rfl, rfl⟩

end AtlasOS
